import Mathlib

/-!
Shallow embedding of the Banking System core module (`com.bank.core`):
`Account`, `Transaction` and `BankingSystem` with `createAccount`,
`deposit`, `withdraw`, `transfer`, `closeAccount`, `canWithdraw` and
`getTodayWithdrawals`.

Modelling conventions, faithful to the source:
* `BigDecimal` amounts at scale 2 are modelled as `Int` minor units
  (cents); `setScale(2, HALF_UP)` is the identity on such values, so the
  constants become `OVERDRAFT_LIMIT = -50000`, `TRANSFER_FEE = 250`, etc.
* `LocalDateTime.now()` is modelled by a tick counter `now : Nat` carried
  in the system state; every transaction created by one operation is
  stamped with the operation's tick, and the tick advances by one at the
  end of each mutating operation.  `LocalDateTime.now().toLocalDate().atStartOfDay()`
  is modelled by a state field `dayStart : Nat`; `isAfter(startOfDay)` is
  the strict comparison `dayStart < timestamp`.
* `generateTransactionId()` ("TXN" + millis + random) is modelled by a
  counter `nextTxnId : Nat` such that distinct transactions get distinct
  identifiers.
* `ConcurrentHashMap<String, Account>` is modelled as a `List Account`
  keyed by `accountNumber`; `get` is `find?` on the key and `put` replaces
  the entry with the same key or prepends a new one.
* Java exceptions (`IllegalArgumentException`, `IllegalStateException`)
  are modelled by `Except BankError`; since in the source every `throw`
  happens before any mutation, an error leaves the system unchanged.
* `generateAccountNumber()` draws random fixed-width digit strings and
  retries until the number is unused, so the inserted number is always
  fresh; the model takes the generated number as an explicit argument,
  and trace-level statements restrict to traces whose createAccount
  numbers are fresh (`freshOk`), which is exactly what the retry loop
  guarantees.
-/

namespace Bank

/-- Account.AccountType (CHECKING, SAVINGS, BUSINESS, CREDIT). -/
inductive AccountType where
  | checking
  | savings
  | business
  | credit
deriving DecidableEq

/-- Transaction.TransactionType (DEPOSIT, WITHDRAWAL, TRANSFER, FEE, INTEREST). -/
inductive TransactionType where
  | deposit
  | withdrawal
  | transfer
  | fee
  | interest
deriving DecidableEq

/-- Transaction.TransactionStatus (PENDING, COMPLETED, FAILED, CANCELLED). -/
inductive TransactionStatus where
  | pending
  | completed
  | failed
  | cancelled
deriving DecidableEq

/-- The Account class: number, customer data, type, balance (cents),
creation and last-transaction timestamps (ticks), active flag.  The
per-account `ReentrantLock` has no serial content and is not represented. -/
structure Account where
  accountNumber : String
  customerName : String
  customerId : String
  type : AccountType
  balance : Int
  createdAt : Nat
  lastTransactionDate : Nat
  isActive : Bool
deriving DecidableEq

/-- The Transaction class; `fromAccount`/`toAccount` are nullable in the
source, hence `Option String`. -/
structure Transaction where
  transactionId : Nat
  fromAccount : Option String
  toAccount : Option String
  amount : Int
  type : TransactionType
  timestamp : Nat
  description : String
  status : TransactionStatus
deriving DecidableEq

/-- Java exceptions thrown by the banking system:
`IllegalArgumentException` and `IllegalStateException`. -/
inductive BankError where
  | invalidArgument (msg : String)
  | invalidState (msg : String)
deriving DecidableEq

instance {ε α : Type} [DecidableEq ε] [DecidableEq α] : DecidableEq (Except ε α) :=
  fun x y =>
    match x, y with
    | .ok a, .ok b =>
      if h : a = b then isTrue (congrArg Except.ok h)
      else isFalse (fun hc => h (Except.ok.inj hc))
    | .error a, .error b =>
      if h : a = b then isTrue (congrArg Except.error h)
      else isFalse (fun hc => h (Except.error.inj hc))
    | .ok _, .error _ => isFalse (fun hc => Except.noConfusion hc)
    | .error _, .ok _ => isFalse (fun hc => Except.noConfusion hc)

/-- MIN_BALANCE = new BigDecimal("0.00"), in cents. -/
def MIN_BALANCE : Int := 0

/-- OVERDRAFT_LIMIT = new BigDecimal("-500.00"), in cents. -/
def OVERDRAFT_LIMIT : Int := -50000

/-- TRANSFER_FEE = new BigDecimal("2.50"), in cents. -/
def TRANSFER_FEE : Int := 250

/-- DAILY_WITHDRAWAL_LIMIT = new BigDecimal("1000.00"), in cents. -/
def DAILY_WITHDRAWAL_LIMIT : Int := 100000

/-- Java `s == null || s.trim().isEmpty()` for a non-null string:
`String.trim` strips exactly the characters with code point ≤ U+0020, so
`trim().isEmpty()` holds iff every character is ≤ U+0020. -/
def javaTrimEmpty (s : String) : Bool :=
  s.data.all (fun c => c.val ≤ 0x20)

/-- CUSTOMER_ID_PATTERN = `^[A-Z]{2}\d{8}$`. -/
def customerIdMatches (s : String) : Bool :=
  match s.data with
  | c1 :: c2 :: rest =>
      ('A' ≤ c1 && c1 ≤ 'Z') && ('A' ≤ c2 && c2 ≤ 'Z') &&
      rest.length == 8 && rest.all (fun c => '0' ≤ c && c ≤ '9')
  | _ => false

/-- The BankingSystem state: account registry, append-only transaction
history, the current tick, the start-of-day tick, and the transaction-id
counter. -/
structure BankingSystem where
  accounts : List Account
  transactionHistory : List Transaction
  now : Nat
  dayStart : Nat
  nextTxnId : Nat
deriving DecidableEq

/-- A fresh BankingSystem: empty registry, empty history, clock one tick
past the start of the current day. -/
def initBank : BankingSystem :=
  { accounts := [], transactionHistory := [], now := 1, dayStart := 0, nextTxnId := 0 }

/-- `accounts.get(accountNumber)` on the list representation. -/
def findAcctL (l : List Account) (accountNumber : String) : Option Account :=
  l.find? (fun a => a.accountNumber == accountNumber)

/-- `accounts.get(accountNumber)`. -/
def findAcct (s : BankingSystem) (accountNumber : String) : Option Account :=
  findAcctL s.accounts accountNumber

/-- Apply `g` to the registry entry keyed `accountNumber` (mutation of the
account object held in the map). -/
def updAcct (l : List Account) (accountNumber : String) (g : Account → Account) :
    List Account :=
  l.map (fun a => if a.accountNumber == accountNumber then g a else a)

/-- `account.setBalance(b)`: sets the balance and refreshes
`lastTransactionDate` to the current time. -/
def setBalanceAcct (now : Nat) (b : Int) (a : Account) : Account :=
  { a with balance := b, lastTransactionDate := now }

/-- `accounts.get(n).setBalance(b)` as a state transformer. -/
def setBalance (s : BankingSystem) (accountNumber : String) (b : Int) : BankingSystem :=
  { s with accounts := updAcct s.accounts accountNumber (setBalanceAcct s.now b) }

/-- `accounts.put(a.accountNumber, a)`: replace the entry with the same
key, or add the account if the key is unused. -/
def putAcct (l : List Account) (a : Account) : List Account :=
  if l.any (fun b => b.accountNumber == a.accountNumber) then
    l.map (fun b => if b.accountNumber == a.accountNumber then a else b)
  else a :: l

/-- Sum of the amounts of the history entries satisfying `p`
(`filter(p).map(getAmount).reduce(ZERO, add)`). -/
def txnSum (p : Transaction → Bool) (h : List Transaction) : Int :=
  ((h.filter p).map (fun t => t.amount)).sum

/-- BankingSystem.getTodayWithdrawals: sum of the completed withdrawal and
transfer transactions debited from the account strictly after the start of
the current day. -/
def getTodayWithdrawals (s : BankingSystem) (accountNumber : String) : Int :=
  txnSum (fun t =>
    t.fromAccount == some accountNumber &&
    decide (s.dayStart < t.timestamp) &&
    (t.type == TransactionType.withdrawal || t.type == TransactionType.transfer) &&
    t.status == TransactionStatus.completed) s.transactionHistory

/-- BankingSystem.canWithdraw: the post-withdrawal balance must not fall
below the type-specific floor, and today's withdrawals plus the requested
amount must not exceed the daily limit. -/
def canWithdraw (s : BankingSystem) (account : Account) (amount : Int) : Bool :=
  let newBalance := account.balance - amount
  let minAllowedBalance :=
    if account.type == AccountType.checking then OVERDRAFT_LIMIT else MIN_BALANCE
  if newBalance < minAllowedBalance then false
  else
    let todayWithdrawals := getTodayWithdrawals s account.accountNumber
    if todayWithdrawals + amount > DAILY_WITHDRAWAL_LIMIT then false
    else true

/-- The `new Account(...)` constructor call made by createAccount:
balance is the initial deposit, both timestamps are the creation time and
the account starts active. -/
def mkAccount (s : BankingSystem) (accountNumber customerName customerId : String)
    (type : AccountType) (initialDeposit : Int) : Account :=
  { accountNumber := accountNumber, customerName := customerName,
    customerId := customerId, type := type, balance := initialDeposit,
    createdAt := s.now, lastTransactionDate := s.now, isActive := true }

/-- The completed "Initial deposit" transaction recorded by createAccount
when the initial deposit is positive. -/
def initialDepositTxn (s : BankingSystem) (accountNumber : String)
    (initialDeposit : Int) : Transaction :=
  { transactionId := s.nextTxnId, fromAccount := none,
    toAccount := some accountNumber, amount := initialDeposit,
    type := TransactionType.deposit, timestamp := s.now,
    description := "Initial deposit", status := TransactionStatus.completed }

/-- BankingSystem.createAccount.  The collision-checked random account
number produced by `generateAccountNumber()` is passed in as
`accountNumber`. -/
def createAccount (s : BankingSystem) (accountNumber : String)
    (customerName : String) (customerId : String) (type : AccountType)
    (initialDeposit : Int) : Except BankError (String × BankingSystem) :=
  if javaTrimEmpty customerName then
    .error (.invalidArgument "Customer name cannot be empty")
  else if !customerIdMatches customerId then
    .error (.invalidArgument "Invalid customer ID format")
  else if initialDeposit < 0 then
    .error (.invalidArgument "Initial deposit cannot be negative")
  else if initialDeposit > 0 then
    .ok (accountNumber,
      { s with accounts := putAcct s.accounts
                 (mkAccount s accountNumber customerName customerId type initialDeposit),
               transactionHistory := s.transactionHistory ++
                 [initialDepositTxn s accountNumber initialDeposit],
               now := s.now + 1, nextTxnId := s.nextTxnId + 1 })
  else
    .ok (accountNumber,
      { s with accounts := putAcct s.accounts
                 (mkAccount s accountNumber customerName customerId type initialDeposit),
               now := s.now + 1 })

/-- BankingSystem.deposit. -/
def deposit (s : BankingSystem) (accountNumber : String) (amount : Int)
    (description : Option String) : Except BankError (Bool × BankingSystem) :=
  if amount ≤ 0 then
    .error (.invalidArgument "Deposit amount must be positive")
  else
    match findAcct s accountNumber with
    | none => .ok (false, s)
    | some account =>
      if !account.isActive then .ok (false, s)
      else
        let newBalance := account.balance + amount
        let s1 := setBalance s accountNumber newBalance
        let transaction : Transaction :=
          { transactionId := s.nextTxnId, fromAccount := none,
            toAccount := some accountNumber, amount := amount,
            type := TransactionType.deposit, timestamp := s.now,
            description := description.getD "Deposit",
            status := TransactionStatus.completed }
        .ok (true,
          { s1 with transactionHistory := s1.transactionHistory ++ [transaction],
                    now := s.now + 1, nextTxnId := s.nextTxnId + 1 })

/-- BankingSystem.withdraw. -/
def withdraw (s : BankingSystem) (accountNumber : String) (amount : Int)
    (description : Option String) : Except BankError (Bool × BankingSystem) :=
  if amount ≤ 0 then
    .error (.invalidArgument "Withdrawal amount must be positive")
  else
    match findAcct s accountNumber with
    | none => .ok (false, s)
    | some account =>
      if !account.isActive then .ok (false, s)
      else
        let newBalance := account.balance - amount
        if !canWithdraw s account amount then .ok (false, s)
        else
          let s1 := setBalance s accountNumber newBalance
          let transaction : Transaction :=
            { transactionId := s.nextTxnId, fromAccount := some accountNumber,
              toAccount := none, amount := amount,
              type := TransactionType.withdrawal, timestamp := s.now,
              description := description.getD "Withdrawal",
              status := TransactionStatus.completed }
          .ok (true,
            { s1 with transactionHistory := s1.transactionHistory ++ [transaction],
                      now := s.now + 1, nextTxnId := s.nextTxnId + 1 })

/-- BankingSystem.transfer.  The lock-ordering block (`firstLock` /
`secondLock` chosen by `String.compareTo`) has no serial effect and is
commented in the source as deadlock avoidance only; the serial semantics
below is the body executed with both locks held. -/
def transfer (s : BankingSystem) (fromAccountNumber toAccountNumber : String)
    (amount : Int) (description : Option String) :
    Except BankError (Bool × BankingSystem) :=
  if amount ≤ 0 then
    .error (.invalidArgument "Transfer amount must be positive")
  else if fromAccountNumber == toAccountNumber then
    .error (.invalidArgument "Cannot transfer to the same account")
  else
    match findAcct s fromAccountNumber, findAcct s toAccountNumber with
    | some fromAccount, some toAccount =>
      if !fromAccount.isActive || !toAccount.isActive then .ok (false, s)
      else
        let totalAmount := amount + TRANSFER_FEE
        if !canWithdraw s fromAccount totalAmount then .ok (false, s)
        else
          let s1 := setBalance s fromAccountNumber (fromAccount.balance - totalAmount)
          let s2 := setBalance s1 toAccountNumber (toAccount.balance + amount)
          let transferTransaction : Transaction :=
            { transactionId := s.nextTxnId, fromAccount := some fromAccountNumber,
              toAccount := some toAccountNumber, amount := amount,
              type := TransactionType.transfer, timestamp := s.now,
              description := description.getD "Transfer",
              status := TransactionStatus.completed }
          let feeTransaction : Transaction :=
            { transactionId := s.nextTxnId + 1, fromAccount := some fromAccountNumber,
              toAccount := none, amount := TRANSFER_FEE,
              type := TransactionType.fee, timestamp := s.now,
              description := "Transfer fee", status := TransactionStatus.completed }
          let newHistory :=
            if TRANSFER_FEE > 0 then
              s2.transactionHistory ++ [transferTransaction, feeTransaction]
            else s2.transactionHistory ++ [transferTransaction]
          .ok (true,
            { s2 with transactionHistory := newHistory,
                      now := s.now + 1, nextTxnId := s.nextTxnId + 2 })
    | _, _ => .ok (false, s)

/-- BankingSystem.closeAccount. -/
def closeAccount (s : BankingSystem) (accountNumber : String) :
    Except BankError (Bool × BankingSystem) :=
  match findAcct s accountNumber with
  | none => .ok (false, s)
  | some account =>
    if account.balance ≠ 0 then
      .error (.invalidState "Cannot close account with non-zero balance")
    else
      .ok (true,
        { s with accounts :=
            updAcct s.accounts accountNumber (fun a => { a with isActive := false }) })

/-- A serial operation against the BankingSystem interface, for
trace-level statements (the four operations named by the conservation
law). -/
inductive Op where
  | createAccount (accountNumber customerName customerId : String)
      (type : AccountType) (initialDeposit : Int)
  | deposit (accountNumber : String) (amount : Int) (description : Option String)
  | withdraw (accountNumber : String) (amount : Int) (description : Option String)
  | transfer (fromAccountNumber toAccountNumber : String) (amount : Int)
      (description : Option String)
deriving DecidableEq

/-- Apply one operation serially; a thrown exception leaves the system
unchanged (every throw in the source precedes any mutation). -/
def runOp (s : BankingSystem) : Op → BankingSystem
  | .createAccount n name cid ty dep =>
    match createAccount s n name cid ty dep with
    | .ok (_, s') => s'
    | .error _ => s
  | .deposit n amt d =>
    match deposit s n amt d with
    | .ok (_, s') => s'
    | .error _ => s
  | .withdraw n amt d =>
    match withdraw s n amt d with
    | .ok (_, s') => s'
    | .error _ => s
  | .transfer nf nt amt d =>
    match transfer s nf nt amt d with
    | .ok (_, s') => s'
    | .error _ => s

/-- Apply a sequence of operations serially. -/
def runOps (s : BankingSystem) (ops : List Op) : BankingSystem :=
  ops.foldl runOp s

/-- The account number passed to a createAccount step is fresh, which is
what `generateAccountNumber()`'s collision-checked retry loop guarantees;
every other operation is unconstrained. -/
def freshOk (s : BankingSystem) : Op → Bool
  | .createAccount n _ _ _ _ => !(s.accounts.any (fun b => b.accountNumber == n))
  | _ => true

/-- A trace is admissible when each createAccount step uses a fresh
account number at the state it runs in. -/
def admissible : BankingSystem → List Op → Bool
  | _, [] => true
  | s, op :: rest => freshOk s op && admissible (runOp s op) rest

/-- Sum of all account balances in the registry. -/
def balancesSum (l : List Account) : Int :=
  (l.map (fun a => a.balance)).sum

/-- Sum of all completed deposit transactions (initial plus external). -/
def depositsSum (h : List Transaction) : Int :=
  txnSum (fun t =>
    t.type == TransactionType.deposit && t.status == TransactionStatus.completed) h

/-- Sum of all completed withdrawal transactions. -/
def withdrawalsSum (h : List Transaction) : Int :=
  txnSum (fun t =>
    t.type == TransactionType.withdrawal && t.status == TransactionStatus.completed) h

/-- Sum of all completed fee transactions. -/
def feesSum (h : List Transaction) : Int :=
  txnSum (fun t =>
    t.type == TransactionType.fee && t.status == TransactionStatus.completed) h

/-- Conservation of money: balances plus collected fees equal deposits
minus withdrawals. -/
def conservedQ (s : BankingSystem) : Prop :=
  balancesSum s.accounts + feesSum s.transactionHistory =
    depositsSum s.transactionHistory - withdrawalsSum s.transactionHistory

/-- Registry well-formedness: account numbers are pairwise distinct. -/
def WF (s : BankingSystem) : Prop :=
  (s.accounts.map (fun a => a.accountNumber)).Nodup

/-! ### Registry and history lemmas -/

theorem keys_updAcct (l : List Account) (n : String) (g : Account → Account)
    (hg : ∀ a, (g a).accountNumber = a.accountNumber) :
    (updAcct l n g).map (fun a => a.accountNumber) =
      l.map (fun a => a.accountNumber) := by
  induction l with
  | nil => rfl
  | cons a l ih =>
    simp only [updAcct, List.map_cons] at ih ⊢
    rw [ih]
    congr 1
    by_cases h : (a.accountNumber == n) = true
    · rw [if_pos h]; exact hg a
    · rw [if_neg h]

theorem find_updAcct (l : List Account) (n m : String) (g : Account → Account)
    (hg : ∀ a, (g a).accountNumber = a.accountNumber) :
    findAcctL (updAcct l n g) m =
      (findAcctL l m).map (fun a => if a.accountNumber == n then g a else a) := by
  induction l with
  | nil => rfl
  | cons a l ih =>
    have hukey : (if a.accountNumber == n then g a else a).accountNumber =
        a.accountNumber := by
      by_cases h : (a.accountNumber == n) = true
      · rw [if_pos h]; exact hg a
      · rw [if_neg h]
    show List.find? (fun x => x.accountNumber == m)
        ((if a.accountNumber == n then g a else a) :: updAcct l n g) =
      Option.map (fun x => if x.accountNumber == n then g x else x)
        (List.find? (fun x => x.accountNumber == m) (a :: l))
    by_cases hm : (a.accountNumber == m) = true
    · have h1 : ((if a.accountNumber == n then g a else a).accountNumber == m) = true := by
        rw [hukey]; exact hm
      rw [@List.find?_cons_of_pos _ (fun x => x.accountNumber == m) _ (updAcct l n g) h1,
          @List.find?_cons_of_pos _ (fun x => x.accountNumber == m) _ l hm]
      rfl
    · have h1 : ¬ (((if a.accountNumber == n then g a else a).accountNumber == m) = true) := by
        rw [hukey]; exact hm
      rw [@List.find?_cons_of_neg _ (fun x => x.accountNumber == m) _ (updAcct l n g) h1,
          @List.find?_cons_of_neg _ (fun x => x.accountNumber == m) _ l hm]
      exact ih

theorem updAcct_of_find_none (l : List Account) (n : String) (g : Account → Account)
    (h : findAcctL l n = none) : updAcct l n g = l := by
  induction l with
  | nil => rfl
  | cons a l ih =>
    unfold findAcctL at h
    by_cases ha : (a.accountNumber == n) = true
    · rw [@List.find?_cons_of_pos _ (fun x => x.accountNumber == n) _ l ha] at h
      exact absurd h (by simp)
    · rw [@List.find?_cons_of_neg _ (fun x => x.accountNumber == n) _ l ha] at h
      show (if a.accountNumber == n then g a else a) :: updAcct l n g = a :: l
      rw [if_neg ha, ih h]

theorem find_none_of_key_not_mem (l : List Account) (n : String)
    (h : n ∉ l.map (fun a => a.accountNumber)) : findAcctL l n = none := by
  induction l with
  | nil => rfl
  | cons a l ih =>
    simp only [List.map_cons, List.mem_cons, not_or] at h
    have ha : ¬ ((a.accountNumber == n) = true) := by
      simp only [beq_iff_eq]
      exact fun he => h.1 he.symm
    show List.find? (fun x => x.accountNumber == n) (a :: l) = none
    rw [@List.find?_cons_of_neg _ (fun x => x.accountNumber == n) _ l ha]
    exact ih h.2

theorem key_of_find_some (l : List Account) (n : String) (a : Account)
    (h : findAcctL l n = some a) : a.accountNumber = n := by
  have := List.find?_some h
  exact eq_of_beq this

theorem balancesSum_updAcct (l : List Account) (n : String) (g : Account → Account)
    (hnd : (l.map (fun a => a.accountNumber)).Nodup)
    (a : Account) (hf : findAcctL l n = some a) :
    balancesSum (updAcct l n g) = balancesSum l - a.balance + (g a).balance := by
  induction l with
  | nil => exact absurd hf (by simp [findAcctL])
  | cons b l ih =>
    simp only [List.map_cons, List.nodup_cons] at hnd
    unfold findAcctL at hf
    by_cases hb : (b.accountNumber == n) = true
    · rw [@List.find?_cons_of_pos _ (fun x => x.accountNumber == n) _ l hb] at hf
      have hba : b = a := Option.some.inj hf
      subst hba
      have hkey : b.accountNumber = n := eq_of_beq hb
      have hnone : findAcctL l n = none :=
        find_none_of_key_not_mem l n (by rw [← hkey]; exact hnd.1)
      have hupd : updAcct l n g = l := updAcct_of_find_none l n g hnone
      show balancesSum ((if b.accountNumber == n then g b else b) :: updAcct l n g) = _
      rw [if_pos hb, hupd]
      simp only [balancesSum, List.map_cons, List.sum_cons]
      ring
    · rw [@List.find?_cons_of_neg _ (fun x => x.accountNumber == n) _ l hb] at hf
      have hrec := ih hnd.2 hf
      show balancesSum ((if b.accountNumber == n then g b else b) :: updAcct l n g) = _
      rw [if_neg hb]
      simp only [balancesSum, List.map_cons, List.sum_cons] at hrec ⊢
      rw [hrec]
      ring

theorem txnSum_append (p : Transaction → Bool) (h : List Transaction)
    (t : Transaction) :
    txnSum p (h ++ [t]) = txnSum p h + (if p t then t.amount else 0) := by
  simp only [txnSum, List.filter_append, List.map_append, List.sum_append]
  by_cases hp : p t
  · simp [hp]
  · simp [hp]

theorem wf_keys_setBalance (s : BankingSystem) (n : String) (b : Int) (hwf : WF s) :
    ((updAcct s.accounts n (setBalanceAcct s.now b)).map (fun a => a.accountNumber)).Nodup := by
  rw [keys_updAcct s.accounts n (setBalanceAcct s.now b) (fun a => rfl)]
  exact hwf

theorem txnSum_append2 (p : Transaction → Bool) (h : List Transaction)
    (t1 t2 : Transaction) :
    txnSum p (h ++ [t1, t2]) =
      txnSum p h + (if p t1 then t1.amount else 0) + (if p t2 then t2.amount else 0) := by
  have he : h ++ [t1, t2] = (h ++ [t1]) ++ [t2] := by simp
  rw [he, txnSum_append, txnSum_append]

theorem deposit_step (s : BankingSystem) (n : String) (amt : Int) (d : Option String)
    (hwf : WF s) (hc : conservedQ s) :
    WF (runOp s (Op.deposit n amt d)) ∧ conservedQ (runOp s (Op.deposit n amt d)) := by
  simp only [runOp]
  unfold deposit
  by_cases h0 : amt ≤ 0
  · rw [if_pos h0]
    exact ⟨hwf, hc⟩
  · rw [if_neg h0]
    cases hfind : findAcct s n with
    | none =>
      simp only [hfind]
      exact ⟨hwf, hc⟩
    | some a =>
      simp only [hfind]
      by_cases hact : (!a.isActive) = true
      · rw [if_pos hact]
        exact ⟨hwf, hc⟩
      · rw [if_neg hact]
        constructor
        · exact wf_keys_setBalance s n (a.balance + amt) hwf
        · unfold conservedQ depositsSum withdrawalsSum feesSum at hc ⊢
          simp only [setBalance, txnSum_append]
          rw [balancesSum_updAcct s.accounts n (setBalanceAcct s.now (a.balance + amt)) hwf a hfind]
          simp only [setBalanceAcct]
          simp
          omega

theorem withdraw_step (s : BankingSystem) (n : String) (amt : Int) (d : Option String)
    (hwf : WF s) (hc : conservedQ s) :
    WF (runOp s (Op.withdraw n amt d)) ∧ conservedQ (runOp s (Op.withdraw n amt d)) := by
  simp only [runOp]
  unfold withdraw
  by_cases h0 : amt ≤ 0
  · rw [if_pos h0]
    exact ⟨hwf, hc⟩
  · rw [if_neg h0]
    cases hfind : findAcct s n with
    | none =>
      simp only [hfind]
      exact ⟨hwf, hc⟩
    | some a =>
      simp only [hfind]
      by_cases hact : (!a.isActive) = true
      · rw [if_pos hact]
        exact ⟨hwf, hc⟩
      · rw [if_neg hact]
        by_cases hcw : (!canWithdraw s a amt) = true
        · rw [if_pos hcw]
          exact ⟨hwf, hc⟩
        · rw [if_neg hcw]
          constructor
          · exact wf_keys_setBalance s n (a.balance - amt) hwf
          · unfold conservedQ depositsSum withdrawalsSum feesSum at hc ⊢
            simp only [setBalance, txnSum_append]
            rw [balancesSum_updAcct s.accounts n (setBalanceAcct s.now (a.balance - amt)) hwf a hfind]
            simp only [setBalanceAcct]
            simp
            omega

theorem transfer_step (s : BankingSystem) (nf nt : String) (amt : Int) (d : Option String)
    (hwf : WF s) (hc : conservedQ s) :
    WF (runOp s (Op.transfer nf nt amt d)) ∧ conservedQ (runOp s (Op.transfer nf nt amt d)) := by
  simp only [runOp]
  unfold transfer
  by_cases h0 : amt ≤ 0
  · rw [if_pos h0]
    exact ⟨hwf, hc⟩
  · rw [if_neg h0]
    by_cases hself : (nf == nt) = true
    · rw [if_pos hself]
      exact ⟨hwf, hc⟩
    · rw [if_neg hself]
      cases hff : findAcct s nf with
      | none =>
        cases hft : findAcct s nt with
        | none => simp only [hff, hft]; exact ⟨hwf, hc⟩
        | some ta => simp only [hff, hft]; exact ⟨hwf, hc⟩
      | some fa =>
        cases hft : findAcct s nt with
        | none => simp only [hff, hft]; exact ⟨hwf, hc⟩
        | some ta =>
          simp only [hff, hft]
          by_cases hact : (!fa.isActive || !ta.isActive) = true
          · rw [if_pos hact]
            exact ⟨hwf, hc⟩
          · rw [if_neg hact]
            by_cases hcw : (!canWithdraw s fa (amt + TRANSFER_FEE)) = true
            · rw [if_pos hcw]
              exact ⟨hwf, hc⟩
            · rw [if_neg hcw]
              have hnfne : nf ≠ nt := by
                intro he
                rw [he] at hself
                simp at hself
              have htakey : ta.accountNumber = nt := key_of_find_some s.accounts nt ta hft
              have hft' : findAcctL s.accounts nt = some ta := hft
              have hfind1 : findAcctL (updAcct s.accounts nf
                  (setBalanceAcct s.now (fa.balance - (amt + TRANSFER_FEE)))) nt = some ta := by
                rw [find_updAcct s.accounts nf nt
                  (setBalanceAcct s.now (fa.balance - (amt + TRANSFER_FEE))) (fun a => rfl)]
                rw [hft']
                simp [htakey, Ne.symm hnfne]
              have hnd1 : ((updAcct s.accounts nf
                  (setBalanceAcct s.now (fa.balance - (amt + TRANSFER_FEE)))).map
                    (fun a => a.accountNumber)).Nodup :=
                wf_keys_setBalance s nf (fa.balance - (amt + TRANSFER_FEE)) hwf
              constructor
              · have h2 : ((updAcct (updAcct s.accounts nf
                    (setBalanceAcct s.now (fa.balance - (amt + TRANSFER_FEE)))) nt
                      (setBalanceAcct s.now (ta.balance + amt))).map
                        (fun a => a.accountNumber)).Nodup := by
                  rw [keys_updAcct (updAcct s.accounts nf
                    (setBalanceAcct s.now (fa.balance - (amt + TRANSFER_FEE)))) nt
                      (setBalanceAcct s.now (ta.balance + amt)) (fun a => rfl)]
                  exact hnd1
                exact h2
              · have h2 : conservedQ
                    { accounts := updAcct (updAcct s.accounts nf
                        (setBalanceAcct s.now (fa.balance - (amt + TRANSFER_FEE)))) nt
                          (setBalanceAcct s.now (ta.balance + amt)),
                      transactionHistory := s.transactionHistory ++
                        [{ transactionId := s.nextTxnId, fromAccount := some nf,
                           toAccount := some nt, amount := amt,
                           type := TransactionType.transfer, timestamp := s.now,
                           description := d.getD "Transfer",
                           status := TransactionStatus.completed },
                         { transactionId := s.nextTxnId + 1, fromAccount := some nf,
                           toAccount := none, amount := TRANSFER_FEE,
                           type := TransactionType.fee, timestamp := s.now,
                           description := "Transfer fee",
                           status := TransactionStatus.completed }],
                      now := s.now + 1, dayStart := s.dayStart,
                      nextTxnId := s.nextTxnId + 2 } := by
                  unfold conservedQ depositsSum withdrawalsSum feesSum at hc ⊢
                  simp only [txnSum_append2]
                  rw [show (updAcct (updAcct s.accounts nf
                        (setBalanceAcct s.now (fa.balance - (amt + TRANSFER_FEE)))) nt
                          (setBalanceAcct s.now (ta.balance + amt))) =
                      updAcct (updAcct s.accounts nf
                        (setBalanceAcct s.now (fa.balance - (amt + TRANSFER_FEE)))) nt
                          (setBalanceAcct s.now (ta.balance + amt)) from rfl]
                  rw [balancesSum_updAcct (updAcct s.accounts nf
                    (setBalanceAcct s.now (fa.balance - (amt + TRANSFER_FEE)))) nt
                      (setBalanceAcct s.now (ta.balance + amt)) hnd1 ta hfind1]
                  rw [balancesSum_updAcct s.accounts nf
                    (setBalanceAcct s.now (fa.balance - (amt + TRANSFER_FEE))) hwf fa hff]
                  simp only [setBalanceAcct, TRANSFER_FEE]
                  simp
                  omega
                exact h2

theorem create_step (s : BankingSystem) (n name cid : String) (ty : AccountType) (dep : Int)
    (hwf : WF s) (hc : conservedQ s)
    (hfresh : freshOk s (Op.createAccount n name cid ty dep) = true) :
    WF (runOp s (Op.createAccount n name cid ty dep)) ∧
      conservedQ (runOp s (Op.createAccount n name cid ty dep)) := by
  simp only [freshOk, Bool.not_eq_true'] at hfresh
  simp only [runOp]
  unfold createAccount
  by_cases hname : javaTrimEmpty name = true
  · rw [if_pos hname]
    exact ⟨hwf, hc⟩
  · rw [if_neg hname]
    by_cases hcid : (!customerIdMatches cid) = true
    · rw [if_pos hcid]
      exact ⟨hwf, hc⟩
    · rw [if_neg hcid]
      by_cases hneg : dep < 0
      · rw [if_pos hneg]
        exact ⟨hwf, hc⟩
      · rw [if_neg hneg]
        have hput : putAcct s.accounts (mkAccount s n name cid ty dep) =
            mkAccount s n name cid ty dep :: s.accounts := by
          unfold putAcct
          rw [if_neg]
          rw [show (mkAccount s n name cid ty dep).accountNumber = n from rfl]
          simp [hfresh]
        have hnotin : n ∉ s.accounts.map (fun a => a.accountNumber) := by
          intro hmem
          obtain ⟨a, ha, hk⟩ := List.mem_map.mp hmem
          have := List.any_eq_false.mp hfresh a ha
          rw [hk] at this
          simp at this
        have hwfcons : ((putAcct s.accounts (mkAccount s n name cid ty dep)).map
            (fun a => a.accountNumber)).Nodup := by
          rw [hput]
          simp only [List.map_cons]
          exact List.nodup_cons.mpr ⟨hnotin, hwf⟩
        have hbal : balancesSum (putAcct s.accounts (mkAccount s n name cid ty dep)) =
            dep + balancesSum s.accounts := by
          rw [hput]
          simp [balancesSum, mkAccount]
        by_cases hpos : dep > 0
        · rw [if_pos hpos]
          constructor
          · exact hwfcons
          · unfold conservedQ depositsSum withdrawalsSum feesSum at hc ⊢
            simp only [txnSum_append, hbal]
            simp [initialDepositTxn]
            omega
        · rw [if_neg hpos]
          constructor
          · exact hwfcons
          · unfold conservedQ depositsSum withdrawalsSum feesSum at hc ⊢
            simp only [hbal]
            omega

theorem conserved_run (ops : List Op) : ∀ s : BankingSystem, WF s → conservedQ s →
    admissible s ops = true → WF (runOps s ops) ∧ conservedQ (runOps s ops) := by
  induction ops with
  | nil =>
    intro s hwf hc _
    exact ⟨hwf, hc⟩
  | cons op rest ih =>
    intro s hwf hc hadm
    simp only [admissible, Bool.and_eq_true] at hadm
    have hstep : WF (runOp s op) ∧ conservedQ (runOp s op) := by
      cases op with
      | createAccount n name cid ty dep => exact create_step s n name cid ty dep hwf hc hadm.1
      | deposit n amt d => exact deposit_step s n amt d hwf hc
      | withdraw n amt d => exact withdraw_step s n amt d hwf hc
      | transfer nf nt amt d => exact transfer_step s nf nt amt d hwf hc
    show WF (runOps (runOp s op) rest) ∧ conservedQ (runOps (runOp s op) rest)
    exact ih (runOp s op) hstep.1 hstep.2 hadm.2

/-! ### Claim theorems -/

/-- C1: for every admissible serial sequence of
createAccount/deposit/withdraw/transfer operations applied to a fresh
BankingSystem (admissible: each createAccount uses the fresh account
number that generateAccountNumber guarantees), the sum of all account
balances plus the sum of all collected fees equals the sum of all
completed deposit transactions (initial plus external) minus the sum of
all completed withdrawal transactions: conservation of money. -/
theorem C1_conservation_of_money (ops : List Op)
    (hadm : admissible initBank ops = true) :
    balancesSum (runOps initBank ops).accounts +
      feesSum (runOps initBank ops).transactionHistory =
    depositsSum (runOps initBank ops).transactionHistory -
      withdrawalsSum (runOps initBank ops).transactionHistory :=
  (conserved_run ops initBank (by exact List.nodup_nil) (by rfl) hadm).2

/-- Witness for C1 at a concrete admissible trace: two accounts, a
deposit, a withdrawal and a transfer. -/
theorem C1_conservation_of_money_witness :
    balancesSum (runOps initBank
      [Op.createAccount "1111111111" "John Doe" "US12345678" AccountType.checking 100000,
       Op.createAccount "2222222222" "Jane Smith" "US87654321" AccountType.savings 50000,
       Op.deposit "1111111111" 25000 (some "Salary deposit"),
       Op.withdraw "1111111111" 10000 (some "ATM withdrawal"),
       Op.transfer "1111111111" "2222222222" 20000 (some "Payment to Jane")]).accounts +
      feesSum (runOps initBank
      [Op.createAccount "1111111111" "John Doe" "US12345678" AccountType.checking 100000,
       Op.createAccount "2222222222" "Jane Smith" "US87654321" AccountType.savings 50000,
       Op.deposit "1111111111" 25000 (some "Salary deposit"),
       Op.withdraw "1111111111" 10000 (some "ATM withdrawal"),
       Op.transfer "1111111111" "2222222222" 20000 (some "Payment to Jane")]).transactionHistory =
    depositsSum (runOps initBank
      [Op.createAccount "1111111111" "John Doe" "US12345678" AccountType.checking 100000,
       Op.createAccount "2222222222" "Jane Smith" "US87654321" AccountType.savings 50000,
       Op.deposit "1111111111" 25000 (some "Salary deposit"),
       Op.withdraw "1111111111" 10000 (some "ATM withdrawal"),
       Op.transfer "1111111111" "2222222222" 20000 (some "Payment to Jane")]).transactionHistory -
      withdrawalsSum (runOps initBank
      [Op.createAccount "1111111111" "John Doe" "US12345678" AccountType.checking 100000,
       Op.createAccount "2222222222" "Jane Smith" "US87654321" AccountType.savings 50000,
       Op.deposit "1111111111" 25000 (some "Salary deposit"),
       Op.withdraw "1111111111" 10000 (some "ATM withdrawal"),
       Op.transfer "1111111111" "2222222222" 20000 (some "Payment to Jane")]).transactionHistory :=
  C1_conservation_of_money
    [Op.createAccount "1111111111" "John Doe" "US12345678" AccountType.checking 100000,
     Op.createAccount "2222222222" "Jane Smith" "US87654321" AccountType.savings 50000,
     Op.deposit "1111111111" 25000 (some "Salary deposit"),
     Op.withdraw "1111111111" 10000 (some "ATM withdrawal"),
     Op.transfer "1111111111" "2222222222" 20000 (some "Payment to Jane")]
    (by decide)

theorem canWithdraw_iff (s : BankingSystem) (a : Account) (amt : Int) :
    canWithdraw s a amt = true ↔
      ((if a.type = AccountType.checking then OVERDRAFT_LIMIT else MIN_BALANCE) ≤
          a.balance - amt ∧
        getTodayWithdrawals s a.accountNumber + amt ≤ DAILY_WITHDRAWAL_LIMIT) := by
  simp only [canWithdraw, beq_iff_eq]
  split_ifs with h1 h2 <;> simp_all

theorem find_map_put (l : List Account) (a : Account)
    (h : l.any (fun b => b.accountNumber == a.accountNumber) = true) :
    findAcctL (l.map (fun b => if b.accountNumber == a.accountNumber then a else b))
      a.accountNumber = some a := by
  induction l with
  | nil => simp at h
  | cons b l ih =>
    by_cases hb : (b.accountNumber == a.accountNumber) = true
    · show List.find? (fun x => x.accountNumber == a.accountNumber)
        ((if b.accountNumber == a.accountNumber then a else b) ::
          l.map (fun x => if x.accountNumber == a.accountNumber then a else x)) = some a
      rw [if_pos hb]
      rw [@List.find?_cons_of_pos _ (fun x => x.accountNumber == a.accountNumber) a
        (l.map (fun x => if x.accountNumber == a.accountNumber then a else x)) (by simp)]
    · show List.find? (fun x => x.accountNumber == a.accountNumber)
        ((if b.accountNumber == a.accountNumber then a else b) ::
          l.map (fun x => if x.accountNumber == a.accountNumber then a else x)) = some a
      rw [if_neg hb]
      rw [@List.find?_cons_of_neg _ (fun x => x.accountNumber == a.accountNumber) b
        (l.map (fun x => if x.accountNumber == a.accountNumber then a else x)) hb]
      apply ih
      simp only [List.any_cons, Bool.or_eq_true] at h
      rcases h with h | h
      · exact absurd h hb
      · exact h

theorem find_putAcct (l : List Account) (a : Account) :
    findAcctL (putAcct l a) a.accountNumber = some a := by
  unfold putAcct
  by_cases h : l.any (fun b => b.accountNumber == a.accountNumber) = true
  · rw [if_pos h]
    exact find_map_put l a h
  · rw [if_neg h]
    show List.find? (fun x => x.accountNumber == a.accountNumber) (a :: l) = some a
    rw [@List.find?_cons_of_pos _ (fun x => x.accountNumber == a.accountNumber) a l (by simp)]

theorem transfer_ok_of_checks (s : BankingSystem) (nf nt : String) (amt : Int)
    (d : Option String) (h0 : ¬ amt ≤ 0) (hself : ¬ (nf == nt) = true) :
    ∃ r, transfer s nf nt amt d = Except.ok r := by
  unfold transfer
  rw [if_neg h0, if_neg hself]
  cases hff : findAcct s nf with
  | none =>
    cases hft : findAcct s nt with
    | none => exact ⟨_, rfl⟩
    | some ta => exact ⟨_, rfl⟩
  | some fa =>
    cases hft : findAcct s nt with
    | none => exact ⟨_, rfl⟩
    | some ta =>
      simp only [hff, hft]
      by_cases hact : (!fa.isActive || !ta.isActive) = true
      · rw [if_pos hact]
        exact ⟨_, rfl⟩
      · rw [if_neg hact]
        by_cases hcw : (!canWithdraw s fa (amt + TRANSFER_FEE)) = true
        · rw [if_pos hcw]
          exact ⟨_, rfl⟩
        · rw [if_neg hcw]
          exact ⟨_, rfl⟩

/-- C5: declined operations have zero observable effect: whenever deposit,
withdraw or transfer returns false, the returned system state is exactly
the input state — no balance changed and no transaction was appended. -/
theorem C5_decline_leaves_state_unchanged :
    ∀ (s s' : BankingSystem) (n m : String) (amt : Int) (d : Option String),
      (deposit s n amt d = .ok (false, s') → s' = s) ∧
      (withdraw s n amt d = .ok (false, s') → s' = s) ∧
      (transfer s n m amt d = .ok (false, s') → s' = s) := by
  intro s s' n m amt d
  refine ⟨?_, ?_, ?_⟩
  · unfold deposit
    by_cases h0 : amt ≤ 0
    · rw [if_pos h0]
      intro h
      exact absurd h (by simp)
    · rw [if_neg h0]
      cases hfind : findAcct s n with
      | none =>
        intro h
        simpa using (Prod.mk.inj (Except.ok.inj h)).2.symm
      | some a =>
        simp only [hfind]
        by_cases hact : (!a.isActive) = true
        · rw [if_pos hact]
          intro h
          simpa using (Prod.mk.inj (Except.ok.inj h)).2.symm
        · rw [if_neg hact]
          intro h
          exact absurd (Prod.mk.inj (Except.ok.inj h)).1 (by simp)
  · unfold withdraw
    by_cases h0 : amt ≤ 0
    · rw [if_pos h0]
      intro h
      exact absurd h (by simp)
    · rw [if_neg h0]
      cases hfind : findAcct s n with
      | none =>
        intro h
        simpa using (Prod.mk.inj (Except.ok.inj h)).2.symm
      | some a =>
        simp only [hfind]
        by_cases hact : (!a.isActive) = true
        · rw [if_pos hact]
          intro h
          simpa using (Prod.mk.inj (Except.ok.inj h)).2.symm
        · rw [if_neg hact]
          by_cases hcw : (!canWithdraw s a amt) = true
          · rw [if_pos hcw]
            intro h
            simpa using (Prod.mk.inj (Except.ok.inj h)).2.symm
          · rw [if_neg hcw]
            intro h
            exact absurd (Prod.mk.inj (Except.ok.inj h)).1 (by simp)
  · unfold transfer
    by_cases h0 : amt ≤ 0
    · rw [if_pos h0]
      intro h
      exact absurd h (by simp)
    · rw [if_neg h0]
      by_cases hself : (n == m) = true
      · rw [if_pos hself]
        intro h
        exact absurd h (by simp)
      · rw [if_neg hself]
        cases hff : findAcct s n with
        | none =>
          cases hft : findAcct s m with
          | none =>
            intro h
            simpa using (Prod.mk.inj (Except.ok.inj h)).2.symm
          | some ta =>
            intro h
            simpa using (Prod.mk.inj (Except.ok.inj h)).2.symm
        | some fa =>
          cases hft : findAcct s m with
          | none =>
            intro h
            simpa using (Prod.mk.inj (Except.ok.inj h)).2.symm
          | some ta =>
            simp only [hff, hft]
            by_cases hact : (!fa.isActive || !ta.isActive) = true
            · rw [if_pos hact]
              intro h
              simpa using (Prod.mk.inj (Except.ok.inj h)).2.symm
            · rw [if_neg hact]
              by_cases hcw : (!canWithdraw s fa (amt + TRANSFER_FEE)) = true
              · rw [if_pos hcw]
                intro h
                simpa using (Prod.mk.inj (Except.ok.inj h)).2.symm
              · rw [if_neg hcw]
                intro h
                exact absurd (Prod.mk.inj (Except.ok.inj h)).1 (by simp)

/-- Witness for C5: a withdrawal from an unknown account on a fresh system
is declined and leaves the system unchanged. -/
theorem C5_decline_leaves_state_unchanged_witness : initBank = initBank :=
  (C5_decline_leaves_state_unchanged initBank initBank "0000000000" "0000000000"
    100 none).2.1 (by decide)

/-- C6: transfer throws IllegalArgumentException exactly when the amount
is non-positive or source equals destination; in every other case
(including unknown or inactive accounts and failed policy checks) it
returns a boolean outcome, and every error it throws is an
InvalidArgument. -/
theorem C6_transfer_error_iff :
    ∀ (s : BankingSystem) (nf nt : String) (amt : Int) (d : Option String),
      ((∃ e, transfer s nf nt amt d = .error e) ↔ (amt ≤ 0 ∨ nf = nt)) ∧
      (∀ e, transfer s nf nt amt d = .error e → ∃ msg, e = .invalidArgument msg) := by
  intro s nf nt amt d
  by_cases h0 : amt ≤ 0
  · constructor
    · constructor
      · intro _
        exact Or.inl h0
      · intro _
        refine ⟨.invalidArgument "Transfer amount must be positive", ?_⟩
        unfold transfer
        rw [if_pos h0]
    · intro e he
      unfold transfer at he
      rw [if_pos h0] at he
      exact ⟨_, (Except.error.inj he).symm⟩
  · by_cases hself : (nf == nt) = true
    · have heq : nf = nt := eq_of_beq hself
      constructor
      · constructor
        · intro _
          exact Or.inr heq
        · intro _
          refine ⟨.invalidArgument "Cannot transfer to the same account", ?_⟩
          unfold transfer
          rw [if_neg h0, if_pos hself]
      · intro e he
        unfold transfer at he
        rw [if_neg h0, if_pos hself] at he
        exact ⟨_, (Except.error.inj he).symm⟩
    · obtain ⟨r, hr⟩ := transfer_ok_of_checks s nf nt amt d h0 hself
      constructor
      · constructor
        · intro ⟨e, he⟩
          rw [hr] at he
          exact absurd he (by simp)
        · intro h
          rcases h with h | h
          · exact absurd h h0
          · exact absurd (beq_iff_eq.mpr h) hself
      · intro e he
        rw [hr] at he
        exact absurd he (by simp)

/-- Witness for C6 applied at a concrete self-transfer. -/
theorem C6_transfer_error_iff_witness :
    ∃ e, transfer initBank "1234567890" "1234567890" 100 none = .error e :=
  (C6_transfer_error_iff initBank "1234567890" "1234567890" 100 none).1.mpr
    (Or.inr rfl)

theorem transfer_success_state (s : BankingSystem) (nf nt : String) (amt : Int)
    (d : Option String) (fa ta : Account)
    (hff : findAcct s nf = some fa) (hft : findAcct s nt = some ta)
    (haf : fa.isActive = true) (hat : ta.isActive = true)
    (hne : nf ≠ nt) (hpos : 0 < amt)
    (hcw : canWithdraw s fa (amt + TRANSFER_FEE) = true) :
    transfer s nf nt amt d = .ok (true,
      { accounts := updAcct (updAcct s.accounts nf
          (setBalanceAcct s.now (fa.balance - (amt + TRANSFER_FEE)))) nt
            (setBalanceAcct s.now (ta.balance + amt)),
        transactionHistory := s.transactionHistory ++
          [{ transactionId := s.nextTxnId, fromAccount := some nf, toAccount := some nt,
             amount := amt, type := TransactionType.transfer, timestamp := s.now,
             description := d.getD "Transfer", status := TransactionStatus.completed },
           { transactionId := s.nextTxnId + 1, fromAccount := some nf, toAccount := none,
             amount := TRANSFER_FEE, type := TransactionType.fee, timestamp := s.now,
             description := "Transfer fee", status := TransactionStatus.completed }],
        now := s.now + 1, dayStart := s.dayStart, nextTxnId := s.nextTxnId + 2 }) := by
  unfold transfer
  rw [if_neg (not_le.mpr hpos)]
  rw [if_neg (show ¬ ((nf == nt) = true) by simp only [beq_iff_eq]; exact hne)]
  simp only [hff, hft]
  rw [if_neg (by simp [haf, hat])]
  rw [if_neg (by simp [hcw])]
  rfl

theorem transfer_true_elim (s s' : BankingSystem) (nf nt : String) (amt : Int)
    (d : Option String) (h : transfer s nf nt amt d = .ok (true, s')) :
    ∃ fa, findAcct s nf = some fa ∧ canWithdraw s fa (amt + TRANSFER_FEE) = true ∧
      fa.accountNumber = nf ∧ s'.dayStart = s.dayStart ∧
      s'.transactionHistory = s.transactionHistory ++
        [{ transactionId := s.nextTxnId, fromAccount := some nf, toAccount := some nt,
           amount := amt, type := TransactionType.transfer, timestamp := s.now,
           description := d.getD "Transfer", status := TransactionStatus.completed },
         { transactionId := s.nextTxnId + 1, fromAccount := some nf, toAccount := none,
           amount := TRANSFER_FEE, type := TransactionType.fee, timestamp := s.now,
           description := "Transfer fee", status := TransactionStatus.completed }] := by
  unfold transfer at h
  by_cases h0 : amt ≤ 0
  · rw [if_pos h0] at h
    exact absurd h (by simp)
  · rw [if_neg h0] at h
    by_cases hself : (nf == nt) = true
    · rw [if_pos hself] at h
      exact absurd h (by simp)
    · rw [if_neg hself] at h
      cases hff : findAcct s nf with
      | none =>
        cases hft : findAcct s nt with
        | none =>
          rw [hff, hft] at h
          exact absurd (Prod.mk.inj (Except.ok.inj h)).1.symm (by simp)
        | some ta =>
          rw [hff, hft] at h
          exact absurd (Prod.mk.inj (Except.ok.inj h)).1.symm (by simp)
      | some fa =>
        cases hft : findAcct s nt with
        | none =>
          rw [hff, hft] at h
          exact absurd (Prod.mk.inj (Except.ok.inj h)).1.symm (by simp)
        | some ta =>
          simp only [hff, hft] at h
          by_cases hact : (!fa.isActive || !ta.isActive) = true
          · rw [if_pos hact] at h
            exact absurd (Prod.mk.inj (Except.ok.inj h)).1.symm (by simp)
          · rw [if_neg hact] at h
            by_cases hcw : (!canWithdraw s fa (amt + TRANSFER_FEE)) = true
            · rw [if_pos hcw] at h
              exact absurd (Prod.mk.inj (Except.ok.inj h)).1.symm (by simp)
            · rw [if_neg hcw] at h
              have hs' := (Prod.mk.inj (Except.ok.inj h)).2
              refine ⟨fa, rfl, by simpa using hcw,
                key_of_find_some s.accounts nf fa hff, ?_, ?_⟩
              · rw [← hs']
                rfl
              · rw [← hs']
                rfl

theorem withdraw_true_elim (s s' : BankingSystem) (n : String) (amt : Int)
    (d : Option String) (h : withdraw s n amt d = .ok (true, s')) :
    ∃ a, findAcct s n = some a ∧ canWithdraw s a amt = true ∧ a.accountNumber = n := by
  unfold withdraw at h
  by_cases h0 : amt ≤ 0
  · rw [if_pos h0] at h
    exact absurd h (by simp)
  · rw [if_neg h0] at h
    cases hfind : findAcct s n with
    | none =>
      rw [hfind] at h
      exact absurd (Prod.mk.inj (Except.ok.inj h)).1.symm (by simp)
    | some a =>
      simp only [hfind] at h
      by_cases hact : (!a.isActive) = true
      · rw [if_pos hact] at h
        exact absurd (Prod.mk.inj (Except.ok.inj h)).1.symm (by simp)
      · rw [if_neg hact] at h
        by_cases hcw : (!canWithdraw s a amt) = true
        · rw [if_pos hcw] at h
          exact absurd (Prod.mk.inj (Except.ok.inj h)).1.symm (by simp)
        · rw [if_neg hcw] at h
          exact ⟨a, rfl, by simpa using hcw, key_of_find_some s.accounts n a hfind⟩

/-- C2: for distinct active accounts where the policy check admits
amount + fee, transfer debits the source by exactly amount + $2.50
(250 cents), credits the destination by exactly amount, and appends
exactly two completed transactions: a transfer record (from, to, amount)
and a fee record (from, null, $2.50). -/
theorem C2_transfer_effect (s : BankingSystem) (nf nt : String) (amt : Int)
    (d : Option String) (fa ta : Account)
    (hff : findAcct s nf = some fa) (hft : findAcct s nt = some ta)
    (haf : fa.isActive = true) (hat : ta.isActive = true)
    (hne : nf ≠ nt) (hpos : 0 < amt)
    (hcw : canWithdraw s fa (amt + TRANSFER_FEE) = true) :
    ∃ s', transfer s nf nt amt d = .ok (true, s') ∧
      (findAcct s' nf).map (fun a => a.balance) = some (fa.balance - (amt + 250)) ∧
      (findAcct s' nt).map (fun a => a.balance) = some (ta.balance + amt) ∧
      s'.transactionHistory = s.transactionHistory ++
        [{ transactionId := s.nextTxnId, fromAccount := some nf, toAccount := some nt,
           amount := amt, type := TransactionType.transfer, timestamp := s.now,
           description := d.getD "Transfer", status := TransactionStatus.completed },
         { transactionId := s.nextTxnId + 1, fromAccount := some nf, toAccount := none,
           amount := 250, type := TransactionType.fee, timestamp := s.now,
           description := "Transfer fee", status := TransactionStatus.completed }] := by
  have hkf : fa.accountNumber = nf := key_of_find_some s.accounts nf fa hff
  have hkt : ta.accountNumber = nt := key_of_find_some s.accounts nt ta hft
  have hff' : findAcctL s.accounts nf = some fa := hff
  have hft' : findAcctL s.accounts nt = some ta := hft
  have h1 : findAcctL (updAcct s.accounts nf
      (setBalanceAcct s.now (fa.balance - (amt + TRANSFER_FEE)))) nf =
      some (setBalanceAcct s.now (fa.balance - (amt + TRANSFER_FEE)) fa) := by
    rw [find_updAcct s.accounts nf nf
      (setBalanceAcct s.now (fa.balance - (amt + TRANSFER_FEE))) (fun a => rfl), hff']
    simp [hkf]
  have h2 : findAcctL (updAcct (updAcct s.accounts nf
      (setBalanceAcct s.now (fa.balance - (amt + TRANSFER_FEE)))) nt
        (setBalanceAcct s.now (ta.balance + amt))) nf =
      some (setBalanceAcct s.now (fa.balance - (amt + TRANSFER_FEE)) fa) := by
    rw [find_updAcct (updAcct s.accounts nf
      (setBalanceAcct s.now (fa.balance - (amt + TRANSFER_FEE)))) nt nf
        (setBalanceAcct s.now (ta.balance + amt)) (fun a => rfl), h1]
    simp [setBalanceAcct, hkf, hne]
  have h3 : findAcctL (updAcct s.accounts nf
      (setBalanceAcct s.now (fa.balance - (amt + TRANSFER_FEE)))) nt = some ta := by
    rw [find_updAcct s.accounts nf nt
      (setBalanceAcct s.now (fa.balance - (amt + TRANSFER_FEE))) (fun a => rfl), hft']
    simp [hkt, Ne.symm hne]
  have h4 : findAcctL (updAcct (updAcct s.accounts nf
      (setBalanceAcct s.now (fa.balance - (amt + TRANSFER_FEE)))) nt
        (setBalanceAcct s.now (ta.balance + amt))) nt =
      some (setBalanceAcct s.now (ta.balance + amt) ta) := by
    rw [find_updAcct (updAcct s.accounts nf
      (setBalanceAcct s.now (fa.balance - (amt + TRANSFER_FEE)))) nt nt
        (setBalanceAcct s.now (ta.balance + amt)) (fun a => rfl), h3]
    simp [hkt]
  refine ⟨_, transfer_success_state s nf nt amt d fa ta hff hft haf hat hne hpos hcw,
    ?_, ?_, ?_⟩
  · show (findAcctL (updAcct (updAcct s.accounts nf
        (setBalanceAcct s.now (fa.balance - (amt + TRANSFER_FEE)))) nt
          (setBalanceAcct s.now (ta.balance + amt))) nf).map (fun a => a.balance) =
      some (fa.balance - (amt + 250))
    rw [h2]
    rfl
  · show (findAcctL (updAcct (updAcct s.accounts nf
        (setBalanceAcct s.now (fa.balance - (amt + TRANSFER_FEE)))) nt
          (setBalanceAcct s.now (ta.balance + amt))) nt).map (fun a => a.balance) =
      some (ta.balance + amt)
    rw [h4]
    rfl
  · rfl

/-- Witness for C2: a concrete $200.00 transfer between two freshly
created accounts debits $202.50 and credits $200.00 with the two expected
log records. -/
theorem C2_transfer_effect_witness :
    ∃ s', transfer (runOps initBank
      [Op.createAccount "1111111111" "John Doe" "US12345678" AccountType.checking 100000,
       Op.createAccount "2222222222" "Jane Smith" "US87654321" AccountType.savings 50000])
      "1111111111" "2222222222" 20000 (some "Payment to Jane") = .ok (true, s') ∧
      (findAcct s' "1111111111").map (fun a => a.balance) = some (100000 - (20000 + 250)) ∧
      (findAcct s' "2222222222").map (fun a => a.balance) = some (50000 + 20000) ∧
      s'.transactionHistory = (runOps initBank
      [Op.createAccount "1111111111" "John Doe" "US12345678" AccountType.checking 100000,
       Op.createAccount "2222222222" "Jane Smith" "US87654321" AccountType.savings 50000]).transactionHistory ++
        [{ transactionId := 2, fromAccount := some "1111111111", toAccount := some "2222222222",
           amount := 20000, type := TransactionType.transfer, timestamp := 3,
           description := (some "Payment to Jane").getD "Transfer",
           status := TransactionStatus.completed },
         { transactionId := 2 + 1, fromAccount := some "1111111111", toAccount := none,
           amount := 250, type := TransactionType.fee, timestamp := 3,
           description := "Transfer fee", status := TransactionStatus.completed }] :=
  C2_transfer_effect (runOps initBank
      [Op.createAccount "1111111111" "John Doe" "US12345678" AccountType.checking 100000,
       Op.createAccount "2222222222" "Jane Smith" "US87654321" AccountType.savings 50000])
    "1111111111" "2222222222" 20000 (some "Payment to Jane")
    { accountNumber := "1111111111", customerName := "John Doe", customerId := "US12345678",
      type := AccountType.checking, balance := 100000, createdAt := 1,
      lastTransactionDate := 1, isActive := true }
    { accountNumber := "2222222222", customerName := "Jane Smith", customerId := "US87654321",
      type := AccountType.savings, balance := 50000, createdAt := 2,
      lastTransactionDate := 2, isActive := true }
    (by decide) (by decide) (by decide) (by decide) (by decide) (by decide) (by decide)

/-- The scenario state for the daily-limit property: one savings account
"3333333333" funded with $2000.00. -/
def c4state1 : BankingSystem :=
  runOps initBank
    [Op.createAccount "3333333333" "John Doe" "US12345678" AccountType.savings 200000]

/-- c4state1 after one $400.00 withdrawal. -/
def c4state2 : BankingSystem :=
  runOps c4state1 [Op.withdraw "3333333333" 40000 none]

/-- c4state2 after a second $400.00 withdrawal. -/
def c4state3 : BankingSystem :=
  runOps c4state2 [Op.withdraw "3333333333" 40000 none]

/-- C4: a withdrawal or transfer debit is permitted only if the account's
completed same-day withdrawal and transfer debits plus the requested
amount do not exceed the $1000.00 daily limit; and concretely three
consecutive same-day $400.00 withdrawals from a funded account see the
first two succeed and the third decline. -/
theorem C4_daily_limit :
    (∀ (s s' : BankingSystem) (n : String) (amt : Int) (d : Option String),
        withdraw s n amt d = .ok (true, s') →
        getTodayWithdrawals s n + amt ≤ DAILY_WITHDRAWAL_LIMIT) ∧
    (∀ (s s' : BankingSystem) (nf nt : String) (amt : Int) (d : Option String),
        transfer s nf nt amt d = .ok (true, s') →
        getTodayWithdrawals s nf + amt ≤ DAILY_WITHDRAWAL_LIMIT) ∧
    withdraw c4state1 "3333333333" 40000 none = .ok (true, c4state2) ∧
    withdraw c4state2 "3333333333" 40000 none = .ok (true, c4state3) ∧
    withdraw c4state3 "3333333333" 40000 none = .ok (false, c4state3) := by
  refine ⟨?_, ?_, by decide, by decide, by decide⟩
  · intro s s' n amt d h
    obtain ⟨a, hfind, hcw, hkey⟩ := withdraw_true_elim s s' n amt d h
    have hiff := (canWithdraw_iff s a amt).mp hcw
    rw [hkey] at hiff
    exact hiff.2
  · intro s s' nf nt amt d h
    obtain ⟨fa, hff, hcw, hkey, _, _⟩ := transfer_true_elim s s' nf nt amt d h
    have hiff := ((canWithdraw_iff s fa (amt + TRANSFER_FEE)).mp hcw).2
    rw [hkey] at hiff
    rw [show TRANSFER_FEE = 250 from rfl] at hiff
    omega

/-- Witness for C4's general bound at the scenario's first withdrawal. -/
theorem C4_daily_limit_witness :
    getTodayWithdrawals c4state1 "3333333333" + 40000 ≤ DAILY_WITHDRAWAL_LIMIT :=
  C4_daily_limit.1 c4state1 c4state2 "3333333333" 40000 none (by decide)

/-- C10: getTodayWithdrawals counts only completed withdrawal and
transfer-debit transactions, never fee transactions; consequently a
successful transfer raises the source account's same-day withdrawal sum
by exactly the transfer amount — the $2.50 fee it also debits is not
counted — even though the admission check at transfer time was applied to
amount plus fee. -/
theorem C10_fee_not_counted :
    (∀ (s : BankingSystem) (n : String) (t : Transaction),
        t.type = TransactionType.fee →
        getTodayWithdrawals
          { s with transactionHistory := s.transactionHistory ++ [t] } n =
          getTodayWithdrawals s n) ∧
    (∀ (s s' : BankingSystem) (nf nt : String) (amt : Int) (d : Option String),
        s.dayStart < s.now →
        transfer s nf nt amt d = .ok (true, s') →
        getTodayWithdrawals s' nf = getTodayWithdrawals s nf + amt) := by
  constructor
  · intro s n t ht
    simp only [getTodayWithdrawals]
    rw [txnSum_append]
    simp [ht]
  · intro s s' nf nt amt d hday h
    obtain ⟨fa, hff, hcw, hkey, hday', hhist⟩ := transfer_true_elim s s' nf nt amt d h
    simp only [getTodayWithdrawals, hday', hhist]
    rw [txnSum_append2]
    simp [hday]

/-- Witness for C10 at a concrete successful transfer. -/
theorem C10_fee_not_counted_witness :
    getTodayWithdrawals (runOps (runOps initBank
      [Op.createAccount "1111111111" "John Doe" "US12345678" AccountType.checking 100000,
       Op.createAccount "2222222222" "Jane Smith" "US87654321" AccountType.savings 50000])
      [Op.transfer "1111111111" "2222222222" 20000 none]) "1111111111" =
    getTodayWithdrawals (runOps initBank
      [Op.createAccount "1111111111" "John Doe" "US12345678" AccountType.checking 100000,
       Op.createAccount "2222222222" "Jane Smith" "US87654321" AccountType.savings 50000])
      "1111111111" + 20000 :=
  C10_fee_not_counted.2 (runOps initBank
      [Op.createAccount "1111111111" "John Doe" "US12345678" AccountType.checking 100000,
       Op.createAccount "2222222222" "Jane Smith" "US87654321" AccountType.savings 50000])
    (runOps (runOps initBank
      [Op.createAccount "1111111111" "John Doe" "US12345678" AccountType.checking 100000,
       Op.createAccount "2222222222" "Jane Smith" "US87654321" AccountType.savings 50000])
      [Op.transfer "1111111111" "2222222222" 20000 none])
    "1111111111" "2222222222" 20000 none (by decide) (by decide)

/-- A reachable state used against the floor-only decline claim: a
checking account funded with $2000.00 that has already withdrawn $900.00
today. -/
def c3state : BankingSystem :=
  runOps initBank
    [Op.createAccount "4444444444" "John Doe" "US12345678" AccountType.checking 200000,
     Op.withdraw "4444444444" 90000 none]

/-- Counterexample to C3 as stated: the $200.00 withdrawal below is
declined with no state change even though the post-withdrawal balance
($900.00) is far above the checking floor of -$500.00 — the decline comes
from the daily withdrawal limit, so "declines exactly when the balance
would fall below the floor" is false. -/
theorem C3_floor_only_counterexample :
    withdraw c3state "4444444444" 20000 none = .ok (false, c3state) ∧
    (findAcct c3state "4444444444").map (fun a => a.isActive) = some true ∧
    (findAcct c3state "4444444444").map (fun a => a.type) = some AccountType.checking ∧
    (findAcct c3state "4444444444").map
      (fun a => decide (a.balance - 20000 < OVERDRAFT_LIMIT)) = some false := by
  decide

/-- C3 (amended): for an existing active account, provided the daily
withdrawal limit is not exceeded by the request, withdraw declines with
no state change exactly when the post-withdrawal balance would fall below
the type-specific floor (-$500.00 for checking, $0.00 otherwise); in
particular a checking account with balance $100.00 accepts $550.00 but
declines $601.00. -/
theorem C3_floor_decline_iff (s : BankingSystem) (n : String) (amt : Int)
    (d : Option String) (a : Account)
    (hfind : findAcct s n = some a) (hact : a.isActive = true) (hpos : 0 < amt)
    (hdaily : getTodayWithdrawals s n + amt ≤ DAILY_WITHDRAWAL_LIMIT) :
    (withdraw s n amt d = .ok (false, s)) ↔
      a.balance - amt <
        (if a.type = AccountType.checking then OVERDRAFT_LIMIT else MIN_BALANCE) := by
  have hkey : a.accountNumber = n := key_of_find_some s.accounts n a hfind
  rw [← hkey] at hdaily
  unfold withdraw
  rw [if_neg (not_le.mpr hpos)]
  simp only [hfind]
  rw [if_neg (by simp [hact])]
  by_cases hcw : canWithdraw s a amt = true
  · rw [if_neg (by simp [hcw])]
    constructor
    · intro h
      exact absurd (Prod.mk.inj (Except.ok.inj h)).1 (by simp)
    · intro hfl
      have hle := ((canWithdraw_iff s a amt).mp hcw).1
      omega
  · have hcwf : canWithdraw s a amt = false := by
      cases hcv : canWithdraw s a amt
      · rfl
      · exact absurd hcv hcw
    rw [if_pos (by simp [hcwf])]
    constructor
    · intro _
      by_contra hfl
      exact hcw ((canWithdraw_iff s a amt).mpr ⟨not_lt.mp hfl, hdaily⟩)
    · intro _
      rfl

/-- The checking account of the spec's floor example: balance $100.00. -/
def c3wstate : BankingSystem :=
  runOps initBank
    [Op.createAccount "5555555555" "John Doe" "US12345678" AccountType.checking 10000]

/-- Witness for the amended C3: $601.00 is declined with no state change,
$550.00 is not declined. -/
theorem C3_floor_decline_iff_witness :
    withdraw c3wstate "5555555555" 60100 none = .ok (false, c3wstate) ∧
    ¬ (withdraw c3wstate "5555555555" 55000 none = .ok (false, c3wstate)) :=
  ⟨(C3_floor_decline_iff c3wstate "5555555555" 60100 none
      { accountNumber := "5555555555", customerName := "John Doe",
        customerId := "US12345678", type := AccountType.checking, balance := 10000,
        createdAt := 1, lastTransactionDate := 1, isActive := true }
      (by decide) (by decide) (by decide) (by decide)).mpr (by decide),
   fun h => by
     have hfl := (C3_floor_decline_iff c3wstate "5555555555" 55000 none
      { accountNumber := "5555555555", customerName := "John Doe",
        customerId := "US12345678", type := AccountType.checking, balance := 10000,
        createdAt := 1, lastTransactionDate := 1, isActive := true }
      (by decide) (by decide) (by decide) (by decide)).mp h
     revert hfl
     decide⟩

theorem createAccount_neg_error (s : BankingSystem) (n name cid : String)
    (ty : AccountType) (dep : Int) (hneg : dep < 0) :
    ∃ msg, createAccount s n name cid ty dep = .error (.invalidArgument msg) := by
  unfold createAccount
  by_cases hname : javaTrimEmpty name = true
  · exact ⟨"Customer name cannot be empty", by rw [if_pos hname]⟩
  · by_cases hcid : (!customerIdMatches cid) = true
    · exact ⟨"Invalid customer ID format", by rw [if_neg hname, if_pos hcid]⟩
    · exact ⟨"Initial deposit cannot be negative",
        by rw [if_neg hname, if_neg hcid, if_pos hneg]⟩

/-- C7: createAccount with a negative initial deposit throws
IllegalArgumentException and leaves the system unchanged (no account in
the registry, no transaction in the log); a successful createAccount with
a positive initial deposit returns the new account number, registers the
new account, and appends exactly one completed deposit transaction whose
to-account is the new account number. -/
theorem C7_create_account_negative_and_success :
    (∀ (s : BankingSystem) (n name cid : String) (ty : AccountType) (dep : Int),
        dep < 0 →
        ∃ msg, createAccount s n name cid ty dep = .error (.invalidArgument msg)) ∧
    (∀ (s : BankingSystem) (n name cid : String) (ty : AccountType) (dep : Int),
        dep < 0 → runOp s (Op.createAccount n name cid ty dep) = s) ∧
    (∀ (s s' : BankingSystem) (n name cid num : String) (ty : AccountType) (dep : Int),
        createAccount s n name cid ty dep = .ok (num, s') → 0 < dep →
        num = n ∧ findAcct s' n = some (mkAccount s n name cid ty dep) ∧
        s'.transactionHistory = s.transactionHistory ++ [initialDepositTxn s n dep]) := by
  refine ⟨createAccount_neg_error, ?_, ?_⟩
  · intro s n name cid ty dep hneg
    simp only [runOp]
    obtain ⟨msg, hmsg⟩ := createAccount_neg_error s n name cid ty dep hneg
    rw [hmsg]
  · intro s s' n name cid num ty dep h hpos
    unfold createAccount at h
    by_cases hname : javaTrimEmpty name = true
    · rw [if_pos hname] at h
      exact absurd h (by simp)
    · rw [if_neg hname] at h
      by_cases hcid : (!customerIdMatches cid) = true
      · rw [if_pos hcid] at h
        exact absurd h (by simp)
      · rw [if_neg hcid, if_neg (by omega : ¬ dep < 0), if_pos hpos] at h
        have hnum := (Prod.mk.inj (Except.ok.inj h)).1
        have hs' := (Prod.mk.inj (Except.ok.inj h)).2
        refine ⟨hnum.symm, ?_, ?_⟩
        · rw [← hs']
          exact find_putAcct s.accounts (mkAccount s n name cid ty dep)
        · rw [← hs']

/-- Witness for C7's success clause at a concrete $50.00 account creation. -/
theorem C7_create_account_witness :
    "6666666666" = "6666666666" ∧
    findAcct (runOps initBank
      [Op.createAccount "6666666666" "John Doe" "US12345678" AccountType.savings 5000])
      "6666666666" =
      some (mkAccount initBank "6666666666" "John Doe" "US12345678"
        AccountType.savings 5000) ∧
    (runOps initBank
      [Op.createAccount "6666666666" "John Doe" "US12345678" AccountType.savings 5000]).transactionHistory =
      initBank.transactionHistory ++ [initialDepositTxn initBank "6666666666" 5000] :=
  C7_create_account_negative_and_success.2.2 initBank
    (runOps initBank
      [Op.createAccount "6666666666" "John Doe" "US12345678" AccountType.savings 5000])
    "6666666666" "John Doe" "US12345678" "6666666666" AccountType.savings 5000
    (by decide) (by decide)

/-- C8: closeAccount returns false for an unknown account, throws
IllegalStateException for a non-zero balance, and otherwise succeeds,
after which the account's balance is exactly zero and it is inactive. -/
theorem C8_close_account :
    ∀ (s : BankingSystem) (n : String),
      (findAcct s n = none → closeAccount s n = .ok (false, s)) ∧
      (∀ a, findAcct s n = some a → a.balance ≠ 0 →
        closeAccount s n =
          .error (.invalidState "Cannot close account with non-zero balance")) ∧
      (∀ a, findAcct s n = some a → a.balance = 0 →
        ∃ s', closeAccount s n = .ok (true, s') ∧
          (findAcct s' n).map (fun x => x.balance) = some 0 ∧
          (findAcct s' n).map (fun x => x.isActive) = some false) := by
  intro s n
  refine ⟨?_, ?_, ?_⟩
  · intro h
    unfold closeAccount
    rw [h]
  · intro a ha hbal
    unfold closeAccount
    rw [ha]
    show (if a.balance ≠ 0 then
        Except.error (BankError.invalidState "Cannot close account with non-zero balance")
      else Except.ok (true,
        { s with accounts :=
            updAcct s.accounts n (fun x => { x with isActive := false }) })) = _
    rw [if_pos hbal]
  · intro a ha hz
    have hkey : a.accountNumber = n := key_of_find_some s.accounts n a ha
    have ha' : findAcctL s.accounts n = some a := ha
    have h1 : findAcctL (updAcct s.accounts n (fun x => { x with isActive := false })) n =
        some { a with isActive := false } := by
      rw [find_updAcct s.accounts n n (fun x => { x with isActive := false })
        (fun x => rfl), ha']
      simp [hkey]
    unfold closeAccount
    rw [ha]
    show ∃ s', (if a.balance ≠ 0 then
        Except.error (BankError.invalidState "Cannot close account with non-zero balance")
      else Except.ok (true,
        { s with accounts :=
            updAcct s.accounts n (fun x => { x with isActive := false }) })) =
        Except.ok (true, s') ∧
      (findAcct s' n).map (fun x => x.balance) = some 0 ∧
      (findAcct s' n).map (fun x => x.isActive) = some false
    rw [if_neg (by simp [hz])]
    refine ⟨_, rfl, ?_, ?_⟩
    · show (findAcctL (updAcct s.accounts n (fun x => { x with isActive := false })) n).map
        (fun x => x.balance) = some 0
      rw [h1]
      simp [hz]
    · show (findAcctL (updAcct s.accounts n (fun x => { x with isActive := false })) n).map
        (fun x => x.isActive) = some false
      rw [h1]
      rfl

/-- Witness for C8's success clause: closing a freshly created
zero-balance account succeeds, leaving balance zero and the account
inactive. -/
theorem C8_close_account_witness :
    ∃ s', closeAccount (runOps initBank
      [Op.createAccount "7777777777" "John Doe" "US12345678" AccountType.savings 0])
      "7777777777" = .ok (true, s') ∧
      (findAcct s' "7777777777").map (fun x => x.balance) = some 0 ∧
      (findAcct s' "7777777777").map (fun x => x.isActive) = some false :=
  (C8_close_account (runOps initBank
      [Op.createAccount "7777777777" "John Doe" "US12345678" AccountType.savings 0])
    "7777777777").2.2
    { accountNumber := "7777777777", customerName := "John Doe",
      customerId := "US12345678", type := AccountType.savings, balance := 0,
      createdAt := 1, lastTransactionDate := 1, isActive := true }
    (by decide) (by decide)

end Bank
